import Mathlib

/-!
Shallow embedding of the TravelAgent validation agent
(`src/validation_agent.py`, class `ValidationAgent`) together with the
data model it reads (`src/planner_agent.py`: `Activity`, `DayPlan`,
`TravelPlan`).

Modelling conventions:
* Python floats are modelled as exact rationals (`ℚ`).
* Python dicts read by the validator (`user_requirements`,
  `plan.accommodation`, `plan.transportation`) are modelled as
  association lists; `dict.get` is `List.lookup`.
* Fallible Python code is modelled in `Except PyError`: an uncaught
  Python exception corresponds to `Except.error`.  The validator has no
  `try`/`except` anywhere, so every raised exception propagates out of
  `validate_plans`.
* A "malformed plan missing the dailyPlans collection" is modelled by
  `daily_plans = none`; reading it raises (Python `AttributeError`).
* `datetime.strptime(s, "%H:%M")` is modelled by `parseTimeHM`, which
  returns minutes since midnight and fails exactly on strings that are
  not `H:MM`/`HH:MM` wall-clock times (Python raises `ValueError`).
* Message strings are carried along (built with `toString` instead of
  Python's `%`-style float formatting); no theorem depends on their
  exact text.
-/

namespace TravelAgent

/-- `Activity` dataclass from `src/planner_agent.py`. -/
structure Activity where
  time : String
  name : String
  location : String
  description : String
  estimated_cost : ℚ
  duration_hours : ℚ
  category : String
  source : String
deriving Repr, DecidableEq

/-- `DayPlan` dataclass from `src/planner_agent.py`. -/
structure DayPlan where
  day_number : Int
  date : String
  theme : String
  activities : List Activity
  total_cost : ℚ
  notes : String
deriving Repr, DecidableEq

/-- `TravelPlan` dataclass from `src/planner_agent.py`.  `daily_plans`
is an `Option` so that a malformed plan object lacking the collection
(the batch-isolation scenario) can be represented; accessing it on such
a plan raises. -/
structure TravelPlan where
  plan_id : String
  plan_name : String
  theme : String
  total_cost : ℚ
  cost_breakdown : List (String × ℚ)
  daily_plans : Option (List DayPlan)
  accommodation : List (String × String)
  transportation : List (String × String)
  key_highlights : List String
  pace : String
deriving Repr, DecidableEq

/-- Python exceptions that the validator can raise. -/
inductive PyError where
  | attributeError (attr : String)
  | valueError (s : String)
  | zeroDivisionError
deriving Repr, DecidableEq

/-- `ValidationIssue` dataclass from `src/validation_agent.py`. -/
structure ValidationIssue where
  severity : String
  category : String
  day_number : Option Int
  problem : String
  suggestion : String
  affected_activities : List String
deriving Repr, DecidableEq

/-- `ValidationResult` dataclass from `src/validation_agent.py`. -/
structure ValidationResult where
  plan_id : String
  status : String
  issues : List ValidationIssue
  warnings : List String
  score : ℚ
deriving Repr, DecidableEq

/-- Threshold constants of `ValidationAgent`. -/
def MAX_DAILY_ACTIVITIES : Nat := 8

def MIN_DAILY_ACTIVITIES : Nat := 3

def MAX_DAILY_COST_VARIANCE : ℚ := 2/5

def MIN_TIME_BETWEEN_ACTIVITIES : ℚ := 1/2

def MAX_ACTIVITY_DURATION : ℚ := 6

def BUDGET_TOLERANCE : ℚ := 1/10

/-- Reading `plan.daily_plans`; on a malformed plan object without the
collection this raises (Python `AttributeError`). -/
def getDailyPlans (plan : TravelPlan) : Except PyError (List DayPlan) :=
  match plan.daily_plans with
  | some days => .ok days
  | none => .error (.attributeError "daily_plans")

/-- Split a character list at every colon (the literal `:` of the
`"%H:%M"` format). -/
def splitOnColon : List Char → List (List Char)
  | [] => [[]]
  | c :: cs =>
    match splitOnColon cs with
    | part :: parts =>
      if c = ':' then [] :: part :: parts else (c :: part) :: parts
    | [] => if c = ':' then [[], []] else [[c]]

/-- A non-empty run of decimal digits, read as a number. -/
def digitsToNat (l : List Char) : Option Nat :=
  if l ≠ [] ∧ l.all (fun c => c.isDigit) then
    some (l.foldl (fun acc c => acc * 10 + (c.toNat - 48)) 0)
  else none

/-- `datetime.strptime(s, "%H:%M")`, reduced to the minutes since
midnight: one or two digits of hour (0-23), a colon, one or two digits
of minute (0-59), nothing else. -/
def parseTimeHM (s : String) : Option Nat :=
  match splitOnColon s.data with
  | [h, m] =>
    match digitsToNat h, digitsToNat m with
    | some hv, some mv =>
      if h.length ≤ 2 ∧ m.length ≤ 2 ∧ hv ≤ 23 ∧ mv ≤ 59 then
        some (hv * 60 + mv)
      else none
    | _, _ => none
  | _ => none

/-- `datetime.strptime` raising `ValueError` on an unparsable time. -/
def strptime (s : String) : Except PyError Nat :=
  match parseTimeHM s with
  | some n => .ok n
  | none => .error (.valueError s)

/-- `user_requirements.get('budget', 0)`. -/
def getBudget (user_requirements : List (String × ℚ)) : ℚ :=
  (user_requirements.lookup "budget").getD 0

/-- `ValidationAgent._validate_budget`.  Both branches interpolate a
division by `user_budget` into their message, so both raise
`ZeroDivisionError` when they fire with a zero budget. -/
def validate_budget (plan : TravelPlan) (user_requirements : List (String × ℚ)) :
    Except PyError (List ValidationIssue) :=
  let user_budget := getBudget user_requirements
  let plan_cost := plan.total_cost
  if plan_cost > user_budget * (1 + BUDGET_TOLERANCE) then
    if user_budget = 0 then
      .error .zeroDivisionError
    else
      .ok [{ severity := "critical", category := "budget", day_number := none,
             problem := "Total cost " ++ toString plan_cost ++ " exceeds budget "
               ++ toString user_budget ++ " by " ++ toString (plan_cost - user_budget)
               ++ " (" ++ toString ((plan_cost - user_budget) / user_budget * 100) ++ "%)",
             suggestion := "Reduce accommodation tier, eliminate expensive activities, or increase budget by "
               ++ toString (plan_cost - user_budget),
             affected_activities := [] }]
  else if plan_cost < user_budget * (6/10) then
    if user_budget = 0 then
      .error .zeroDivisionError
    else
      .ok [{ severity := "low", category := "budget", day_number := none,
             problem := "Plan only uses " ++ toString (plan_cost / user_budget * 100)
               ++ "% of available budget",
             suggestion := "Consider upgrading accommodation or adding premium experiences",
             affected_activities := [] }]
  else
    .ok []

/-- The buffer in hours between two consecutive activities:
`(next_time - (current_time + duration)).total_seconds() / 3600`.
Parsing `current.time` happens before parsing `next_activity.time`,
exactly as in the source. -/
def bufferHours (current next_activity : Activity) : Except PyError ℚ := do
  let current_time ← strptime current.time
  let next_time ← strptime next_activity.time
  return (next_time : ℚ) / 60 - ((current_time : ℚ) / 60 + current.duration_hours)

/-- The issues the pair loop of `_validate_timing` appends for one
consecutive pair: first the `high` insufficient-buffer issue (plain
`if buffer_time < MIN_TIME_BETWEEN_ACTIVITIES`), then the `critical`
overlap issue (plain `if buffer_time < 0`); the two conditions are
checked independently. -/
def pairIssues (dn : Int) (current next_activity : Activity) :
    Except PyError (List ValidationIssue) := do
  let buffer_time ← bufferHours current next_activity
  let buffer_issue :=
    if buffer_time < MIN_TIME_BETWEEN_ACTIVITIES then
      [{ severity := "high", category := "timing", day_number := some dn,
         problem := "Only " ++ toString (buffer_time * 60) ++ " minutes between "
           ++ current.name ++ " and " ++ next_activity.name,
         suggestion := "Add at least 30 minutes buffer for travel and breaks",
         affected_activities := [current.name, next_activity.name] }]
    else []
  let overlap_issue :=
    if buffer_time < 0 then
      [{ severity := "critical", category := "timing", day_number := some dn,
         problem := "Activities overlap: " ++ current.name ++ " ends after "
           ++ next_activity.name ++ " starts",
         suggestion := "Reschedule one of these activities",
         affected_activities := [current.name, next_activity.name] }]
    else []
  return buffer_issue ++ overlap_issue

/-- `for i in range(len(activities) - 1)` of `_validate_timing`:
the pair issues of all consecutive pairs, in order. -/
def consecutivePairIssues (dn : Int) : List Activity → Except PyError (List ValidationIssue)
  | current :: next_activity :: rest => do
      let here ← pairIssues dn current next_activity
      let later ← consecutivePairIssues dn (next_activity :: rest)
      return here ++ later
  | _ => .ok []

/-- The activity-count `if`/`elif` at the top of `_validate_timing`'s
per-day loop. -/
def dayCountIssues (day : DayPlan) : List ValidationIssue :=
  let activities := day.activities
  if activities.length > MAX_DAILY_ACTIVITIES then
    [{ severity := "high", category := "timing", day_number := some day.day_number,
       problem := "Day " ++ toString day.day_number ++ " has "
         ++ toString activities.length ++ " activities (max recommended: "
         ++ toString MAX_DAILY_ACTIVITIES ++ ")",
       suggestion := "Remove or combine some activities to avoid exhaustion",
       affected_activities := activities.map (fun a => a.name) }]
  else if activities.length < MIN_DAILY_ACTIVITIES then
    [{ severity := "low", category := "timing", day_number := some day.day_number,
       problem := "Day " ++ toString day.day_number ++ " only has "
         ++ toString activities.length ++ " activities",
       suggestion := "Consider adding more experiences to make the most of your day",
       affected_activities := activities.map (fun a => a.name) }]
  else []

/-- The unreasonably-long-activity loop at the bottom of
`_validate_timing`'s per-day body. -/
def longActivityIssues (dn : Int) (activities : List Activity) : List ValidationIssue :=
  activities.filterMap fun activity =>
    if activity.duration_hours > MAX_ACTIVITY_DURATION then
      some { severity := "medium", category := "timing", day_number := some dn,
             problem := "Activity " ++ activity.name ++ " is scheduled for "
               ++ toString activity.duration_hours ++ " hours",
             suggestion := "Consider splitting into multiple shorter activities or reducing duration",
             affected_activities := [activity.name] }
    else none

/-- One iteration of `_validate_timing`'s `for day in plan.daily_plans`
loop: count issues, then pair issues, then long-activity issues. -/
def timingDay (day : DayPlan) : Except PyError (List ValidationIssue) := do
  let pair_issues ← consecutivePairIssues day.day_number day.activities
  return dayCountIssues day ++ pair_issues ++ longActivityIssues day.day_number day.activities

/-- `ValidationAgent._validate_timing`. -/
def validate_timing (plan : TravelPlan) : Except PyError (List ValidationIssue) := do
  let days ← getDailyPlans plan
  let per_day ← days.mapM timingDay
  return per_day.flatten

/-- `sum(activity.duration_hours for activity in day.activities)`. -/
def totalHours (day : DayPlan) : ℚ :=
  (day.activities.map (fun a => a.duration_hours)).sum

/-- One iteration of `_validate_daily_balance`'s per-day loop. -/
def balanceDay (day : DayPlan) : List ValidationIssue :=
  let hours_issues :=
    if totalHours day > 12 then
      [{ severity := "high", category := "logistics", day_number := some day.day_number,
         problem := "Day " ++ toString day.day_number ++ " has "
           ++ toString (totalHours day) ++ " hours of activities (over 12 hours)",
         suggestion := "Reduce number of activities or shorten durations to avoid exhaustion",
         affected_activities := day.activities.map (fun a => a.name) }]
    else if totalHours day < 4 then
      [{ severity := "low", category := "logistics", day_number := some day.day_number,
         problem := "Day " ++ toString day.day_number ++ " only has "
           ++ toString (totalHours day) ++ " hours of activities",
         suggestion := "Add more activities to make better use of the day",
         affected_activities := day.activities.map (fun a => a.name) }]
    else []
  let dining_issues :=
    if (day.activities.filter (fun a => a.category == "dining")).length > 4 then
      [{ severity := "low", category := "logistics", day_number := some day.day_number,
         problem := "Day " ++ toString day.day_number ++ " has too many dining activities",
         suggestion := "Balance with more sightseeing or cultural activities",
         affected_activities :=
           (day.activities.filter (fun a => a.category == "dining")).map (fun a => a.name) }]
    else []
  hours_issues ++ dining_issues

/-- `ValidationAgent._validate_daily_balance`. -/
def validate_daily_balance (plan : TravelPlan) : Except PyError (List ValidationIssue) := do
  let days ← getDailyPlans plan
  return (days.map balanceDay).flatten

/-- ASCII lower-casing of one character (`str.lower()` restricted to
ASCII, which is all the source ever feeds it). -/
def lowerChar (c : Char) : Char :=
  if 65 ≤ c.toNat ∧ c.toNat ≤ 90 then Char.ofNat (c.toNat + 32) else c

/-- Does the character list start with the given pattern? -/
def beginsWith : List Char → List Char → Bool
  | [], _ => true
  | _ :: _, [] => false
  | p :: ps, c :: cs => p == c && beginsWith ps cs

/-- Does the pattern occur contiguously anywhere in the list?  (Python's
`in` operator on strings.) -/
def containsSeq (pat : List Char) : List Char → Bool
  | [] => beginsWith pat []
  | c :: cs => beginsWith pat (c :: cs) || containsSeq pat cs

/-- `'museum' in activity.name.lower()`. -/
def containsMuseum (nm : String) : Bool :=
  containsSeq "museum".data (nm.data.map lowerChar)

/-- The two per-activity `if`s of `_validate_activity_feasibility`. -/
def activityFeasibilityIssues (dn : Int) (activity : Activity) : List ValidationIssue :=
  (if activity.estimated_cost < 0 then
    [{ severity := "critical", category := "budget", day_number := some dn,
       problem := "Activity " ++ activity.name ++ " has negative cost "
         ++ toString activity.estimated_cost,
       suggestion := "Correct the cost estimate",
       affected_activities := [activity.name] }]
  else []) ++
  (if activity.estimated_cost = 0 ∧ containsMuseum activity.name then
    [{ severity := "medium", category := "budget", day_number := some dn,
       problem := "Activity " ++ activity.name ++ " listed as free but may require admission",
       suggestion := "Verify if entrance fee is required",
       affected_activities := [activity.name] }]
  else [])

/-- `ValidationAgent._validate_activity_feasibility`. -/
def validate_activity_feasibility (plan : TravelPlan) : Except PyError (List ValidationIssue) := do
  let days ← getDailyPlans plan
  return (days.map (fun day =>
    (day.activities.map (activityFeasibilityIssues day.day_number)).flatten)).flatten

/-- `ValidationAgent._validate_cost_distribution`. -/
def validate_cost_distribution (plan : TravelPlan) : Except PyError (List ValidationIssue) := do
  let days ← getDailyPlans plan
  if days = [] then
    return []
  else
    let daily_costs := days.map (fun d => d.total_cost)
    let avg_cost := daily_costs.sum / (daily_costs.length : ℚ)
    return days.filterMap (fun day =>
      if day.total_cost > avg_cost * (1 + MAX_DAILY_COST_VARIANCE) then
        some { severity := "low", category := "budget", day_number := some day.day_number,
               problem := "Day " ++ toString day.day_number ++ " cost "
                 ++ toString day.total_cost ++ " is "
                 ++ toString (day.total_cost - avg_cost) ++ " above average",
               suggestion := "Consider redistributing expensive activities across multiple days",
               affected_activities := [] }
      else none)

/-- Truthiness of `d.get(key)` for a string-valued dict: a present,
non-empty value. -/
def dictTruthyGet (d : List (String × String)) (key : String) : Bool :=
  match d.lookup key with
  | some v => v ≠ ""
  | none => false

/-- `ValidationAgent._check_warnings`. -/
def check_warnings (plan : TravelPlan) : Except PyError (List String) := do
  let days ← getDailyPlans plan
  let accommodation_warnings :=
    if plan.accommodation.isEmpty || !(dictTruthyGet plan.accommodation "name") then
      ["No specific accommodation recommended - user should research options"]
    else []
  let transportation_warnings :=
    if plan.transportation.isEmpty || !(dictTruthyGet plan.transportation "daily") then
      ["Transportation details are minimal - add more specific guidance"]
    else []
  let total_activities := (days.map (fun d => d.activities.length)).sum
  let activities_with_sources :=
    (days.map (fun d => (d.activities.filter (fun a => a.source ≠ "")).length)).sum
  let source_warnings :=
    if (activities_with_sources : ℚ) < (total_activities : ℚ) * (1/2) then
      ["Only " ++ toString activities_with_sources ++ "/" ++ toString total_activities
        ++ " activities have source attribution"]
    else []
  return accommodation_warnings ++ transportation_warnings ++ source_warnings

/-- The `severity_penalties` dict with its `.get(severity, 0)` access. -/
def severityPenalty (severity : String) : ℚ :=
  if severity == "critical" then 20
  else if severity == "high" then 10
  else if severity == "medium" then 5
  else if severity == "low" then 2
  else 0

/-- `ValidationAgent._calculate_quality_score` (the source also takes
the plan, but never reads it). -/
def calculate_quality_score (_plan : TravelPlan) (issues : List ValidationIssue) : ℚ :=
  max 0 (issues.foldl (fun base_score issue => base_score - severityPenalty issue.severity) 100)

/-- The status derivation at the end of `_validate_single_plan`. -/
def statusOf (issues : List ValidationIssue) : String :=
  let critical_issues := issues.filter (fun i => i.severity == "critical")
  let high_issues := issues.filter (fun i => i.severity == "high")
  if critical_issues ≠ [] then "NEEDS_REVISION"
  else if high_issues ≠ [] then "APPROVED_WITH_WARNINGS"
  else "APPROVED"

/-- `ValidationAgent._validate_single_plan`. -/
def validate_single_plan (plan : TravelPlan) (user_requirements : List (String × ℚ)) :
    Except PyError ValidationResult := do
  let budget_issues ← validate_budget plan user_requirements
  let timing_issues ← validate_timing plan
  let balance_issues ← validate_daily_balance plan
  let feasibility_issues ← validate_activity_feasibility plan
  let distribution_issues ← validate_cost_distribution plan
  let warnings ← check_warnings plan
  let issues := budget_issues ++ timing_issues ++ balance_issues
    ++ feasibility_issues ++ distribution_issues
  return { plan_id := plan.plan_id,
           status := statusOf issues,
           issues := issues,
           warnings := warnings,
           score := calculate_quality_score plan issues }

/-- `ValidationAgent.validate_plans`: a plain loop over the batch with
no exception handling, so the first plan whose validation raises aborts
the whole call. -/
def validate_plans (plans : List TravelPlan) (user_requirements : List (String × ℚ)) :
    Except PyError (List ValidationResult) :=
  plans.mapM (fun plan => validate_single_plan plan user_requirements)

/-! ### Warnings-only projection

The conditions `_check_warnings` looks at — accommodation name,
transportation "daily" entry, activity `source` attribution — are read
by no other check.  `erasePlanWarningFields` blanks exactly those
fields; two plans with the same erasure differ only in
warnings-triggering data. -/

/-- Blank the `source` attribution of an activity. -/
def eraseActivity (a : Activity) : Activity := { a with source := "" }

/-- Blank the `source` attributions of a day's activities. -/
def eraseDay (d : DayPlan) : DayPlan := { d with activities := d.activities.map eraseActivity }

/-- Blank every field that only `_check_warnings` reads. -/
def erasePlanWarningFields (p : TravelPlan) : TravelPlan :=
  { p with accommodation := [], transportation := [],
           daily_plans := p.daily_plans.map (fun ds => ds.map eraseDay) }

/-! ### Concrete inputs used by witnesses and counterexamples -/

/-- A small activity constructor for the concrete examples. -/
def mkAct (t n : String) (dur cost : ℚ) (src : String) : Activity :=
  { time := t, name := n, location := "L", description := "D",
    estimated_cost := cost, duration_hours := dur, category := "sightseeing",
    source := src }

def req1000 : List (String × ℚ) := [("budget", 1000)]

/-- A plan that validates without raising (empty day list). -/
def goodPlan1 : TravelPlan :=
  { plan_id := "A", plan_name := "P1", theme := "balanced", total_cost := 500,
    cost_breakdown := [], daily_plans := some [],
    accommodation := [("name", "Hotel X")], transportation := [("daily", "Metro")],
    key_highlights := [], pace := "moderate" }

/-- Another well-formed plan. -/
def goodPlan3 : TravelPlan :=
  { plan_id := "C", plan_name := "P3", theme := "luxury", total_cost := 900,
    cost_breakdown := [], daily_plans := some [],
    accommodation := [("name", "Hotel Y")], transportation := [("daily", "Taxi")],
    key_highlights := [], pace := "relaxed" }

/-- A malformed plan object with no `dailyPlans` collection. -/
def malformedPlan : TravelPlan :=
  { plan_id := "B", plan_name := "P2", theme := "balanced", total_cost := 500,
    cost_breakdown := [], daily_plans := none,
    accommodation := [], transportation := [], key_highlights := [],
    pace := "moderate" }

/-- A second malformed plan object, used by the batch fail-fast witness. -/
def malformedPlan2 : TravelPlan :=
  { plan_id := "D", plan_name := "P4", theme := "budget", total_cost := 700,
    cost_breakdown := [], daily_plans := none,
    accommodation := [], transportation := [], key_highlights := [],
    pace := "packed" }

/-- Day with activity 1 at `09:00` for 2 hours and activity 2 at
`10:30`: the pair overlaps by 30 minutes. -/
def overlapDay : DayPlan :=
  { day_number := 1, date := "2025-01-01", theme := "T",
    activities := [mkAct "09:00" "Morning Tour" 2 10 "yt",
                   mkAct "10:30" "Lunch" 1 20 ""],
    total_cost := 30, notes := "" }

def overlapPlan : TravelPlan :=
  { plan_id := "A", plan_name := "P", theme := "t", total_cost := 30,
    cost_breakdown := [], daily_plans := some [overlapDay],
    accommodation := [], transportation := [], key_highlights := [],
    pace := "moderate" }

/-- A plan whose first activity has the unparsable time `"banana"`. -/
def badTimePlan : TravelPlan :=
  { plan_id := "A", plan_name := "P", theme := "t", total_cost := 700,
    cost_breakdown := [],
    daily_plans := some [{ day_number := 1, date := "2025-01-01", theme := "T",
                           activities := [mkAct "banana" "Brunch" 1 10 "",
                                          mkAct "12:00" "Walk" 1 5 ""],
                           total_cost := 15, notes := "" }],
    accommodation := [], transportation := [], key_highlights := [],
    pace := "moderate" }

/-- A plan whose first activity has the out-of-range time `"12:99"`. -/
def badTimePlan2 : TravelPlan :=
  { plan_id := "B", plan_name := "Q", theme := "t", total_cost := 700,
    cost_breakdown := [],
    daily_plans := some [{ day_number := 2, date := "2025-01-02", theme := "U",
                           activities := [mkAct "12:99" "Show" 1 30 "",
                                          mkAct "15:00" "Dinner" 1 40 ""],
                           total_cost := 70, notes := "" }],
    accommodation := [], transportation := [], key_highlights := [],
    pace := "moderate" }

/-- Total cost 1101 against budget 1000: just over the 10% tolerance. -/
def plan1101 : TravelPlan :=
  { plan_id := "A", plan_name := "P", theme := "t", total_cost := 1101,
    cost_breakdown := [], daily_plans := some [],
    accommodation := [], transportation := [], key_highlights := [],
    pace := "moderate" }

/-- Total cost 1099 against budget 1000: within the 10% tolerance. -/
def plan1099 : TravelPlan :=
  { plan_id := "B", plan_name := "Q", theme := "t", total_cost := 1099,
    cost_breakdown := [], daily_plans := some [],
    accommodation := [], transportation := [], key_highlights := [],
    pace := "moderate" }

/-- A day with 9 parseable activities. -/
def day9 : DayPlan :=
  { day_number := 1, date := "2025-01-01", theme := "T",
    activities := [mkAct "08:00" "A1" 1 5 "", mkAct "09:00" "A2" 1 5 "",
                   mkAct "10:00" "A3" 1 5 "", mkAct "11:00" "A4" 1 5 "",
                   mkAct "12:00" "A5" 1 5 "", mkAct "13:00" "A6" 1 5 "",
                   mkAct "14:00" "A7" 1 5 "", mkAct "15:00" "A8" 1 5 "",
                   mkAct "16:00" "A9" 1 5 ""],
    total_cost := 45, notes := "" }

/-- A day with exactly 8 parseable activities. -/
def day8 : DayPlan :=
  { day_number := 2, date := "2025-01-02", theme := "T",
    activities := [mkAct "08:00" "B1" 1 5 "", mkAct "09:00" "B2" 1 5 "",
                   mkAct "10:00" "B3" 1 5 "", mkAct "11:00" "B4" 1 5 "",
                   mkAct "12:00" "B5" 1 5 "", mkAct "13:00" "B6" 1 5 "",
                   mkAct "14:00" "B7" 1 5 "", mkAct "15:00" "B8" 1 5 ""],
    total_cost := 40, notes := "" }

/-- One ordinary day used by the warnings-independence witness. -/
def warnDay (src : String) : DayPlan :=
  { day_number := 1, date := "2025-01-01", theme := "T",
    activities := [mkAct "09:00" "Walk" 2 10 src, mkAct "12:00" "Gallery" 2 20 src,
                   mkAct "15:00" "Dinner" 2 30 src],
    total_cost := 60, notes := "" }

/-- Plan with accommodation name, transportation detail and sources. -/
def warnPlanA : TravelPlan :=
  { plan_id := "A", plan_name := "P", theme := "t", total_cost := 800,
    cost_breakdown := [], daily_plans := some [warnDay "yt"],
    accommodation := [("name", "Grand Hotel")], transportation := [("daily", "Metro")],
    key_highlights := [], pace := "moderate" }

/-- The same plan with all warnings-triggering data missing. -/
def warnPlanB : TravelPlan :=
  { plan_id := "A", plan_name := "P", theme := "t", total_cost := 800,
    cost_breakdown := [], daily_plans := some [warnDay ""],
    accommodation := [], transportation := [], key_highlights := [],
    pace := "moderate" }

/-- A plan with positive cost, for the zero-budget witness. -/
def costPlan100 : TravelPlan :=
  { plan_id := "A", plan_name := "P", theme := "t", total_cost := 100,
    cost_breakdown := [], daily_plans := some [],
    accommodation := [], transportation := [], key_highlights := [],
    pace := "moderate" }

/-!  ## Theorems -/

section Theorems

attribute [local semireducible] Rat.add Rat.mul Rat.inv Rat.sub

/-- Successful bind in `Except` forces a successful first component. -/
theorem except_bind_ok_inv {ε α β : Type} {x : Except ε α} {f : α → Except ε β} {b : β}
    (h : (x >>= f) = Except.ok b) : ∃ a, x = Except.ok a ∧ f a = Except.ok b := by
  cases x with
  | error e => exact absurd h (by simp [Bind.bind, Except.bind])
  | ok a => exact ⟨a, rfl, h⟩

/-- Structure of a successful `_validate_single_plan` call: every check
succeeded and the result is assembled from their outputs. -/
theorem validate_single_plan_spec (plan : TravelPlan) (req : List (String × ℚ))
    (r : ValidationResult) (h : validate_single_plan plan req = Except.ok r) :
    ∃ b t d f c w, validate_budget plan req = Except.ok b ∧
      validate_timing plan = Except.ok t ∧
      validate_daily_balance plan = Except.ok d ∧
      validate_activity_feasibility plan = Except.ok f ∧
      validate_cost_distribution plan = Except.ok c ∧
      check_warnings plan = Except.ok w ∧
      r = { plan_id := plan.plan_id,
            status := statusOf (b ++ t ++ d ++ f ++ c),
            issues := b ++ t ++ d ++ f ++ c,
            warnings := w,
            score := calculate_quality_score plan (b ++ t ++ d ++ f ++ c) } := by
  unfold validate_single_plan at h
  obtain ⟨b, hb, h⟩ := except_bind_ok_inv h
  obtain ⟨t, ht, h⟩ := except_bind_ok_inv h
  obtain ⟨d, hd, h⟩ := except_bind_ok_inv h
  obtain ⟨f, hf, h⟩ := except_bind_ok_inv h
  obtain ⟨c, hc, h⟩ := except_bind_ok_inv h
  obtain ⟨w, hw, h⟩ := except_bind_ok_inv h
  refine ⟨b, t, d, f, c, w, hb, ht, hd, hf, hc, hw, ?_⟩
  have h2 : Except.ok (ε := PyError)
      ({ plan_id := plan.plan_id,
         status := statusOf (b ++ t ++ d ++ f ++ c),
         issues := b ++ t ++ d ++ f ++ c,
         warnings := w,
         score := calculate_quality_score plan (b ++ t ++ d ++ f ++ c) } :
        ValidationResult) = Except.ok r := h
  exact (Except.ok.inj h2).symm

/-- The score fold is `100` minus the sum of the penalties. -/
theorem foldl_sub_penalty (issues : List ValidationIssue) (init : ℚ) :
    issues.foldl (fun base_score issue => base_score - severityPenalty issue.severity) init
      = init - (issues.map (fun i => severityPenalty i.severity)).sum := by
  induction issues generalizing init with
  | nil => simp
  | cons i is ih => simp [List.foldl_cons, ih, sub_sub]

/-- Every penalty value is non-negative. -/
theorem severityPenalty_nonneg (s : String) : 0 ≤ severityPenalty s := by
  unfold severityPenalty
  split <;> try norm_num
  split <;> try norm_num
  split <;> try norm_num
  split <;> norm_num

/-- The summed penalties of any issue list are non-negative. -/
theorem penalty_sum_nonneg (issues : List ValidationIssue) :
    0 ≤ (issues.map (fun i => severityPenalty i.severity)).sum := by
  apply List.sum_nonneg
  intro q hq
  obtain ⟨i, _, rfl⟩ := List.mem_map.mp hq
  exact severityPenalty_nonneg i.severity

/-- C4: the score returned by `validate_single_plan` equals
`max 0 (100 - Σ penalty(severity))` with penalties 20/10/5/2 for
critical/high/medium/low (`severityPenalty`), and therefore always lies
in `[0, 100]`. -/
theorem quality_score_formula (plan : TravelPlan) (req : List (String × ℚ))
    (r : ValidationResult) (h : validate_single_plan plan req = Except.ok r) :
    r.score = max 0 (100 - (r.issues.map (fun i => severityPenalty i.severity)).sum)
      ∧ 0 ≤ r.score ∧ r.score ≤ 100 := by
  obtain ⟨b, t, d, f, c, w, _, _, _, _, _, _, hr⟩ := validate_single_plan_spec plan req r h
  subst hr
  refine ⟨?_, ?_, ?_⟩
  · show calculate_quality_score plan _ = _
    rw [calculate_quality_score, foldl_sub_penalty]
  · exact le_max_left 0 _
  · show calculate_quality_score plan _ ≤ 100
    rw [calculate_quality_score, foldl_sub_penalty]
    apply max_le (by norm_num)
    have := penalty_sum_nonneg (b ++ t ++ d ++ f ++ c)
    linarith

/-- C4 witness at a concrete plan. -/
theorem quality_score_formula_witness :
    ∃ r, validate_single_plan overlapPlan req1000 = Except.ok r
      ∧ (r.score = max 0 (100 - (r.issues.map (fun i => severityPenalty i.severity)).sum)
          ∧ 0 ≤ r.score ∧ r.score ≤ 100) :=
  ⟨_, rfl, quality_score_formula overlapPlan req1000 _ rfl⟩

/-- A filter on severity is non-empty exactly when the severity list
contains the value. -/
theorem filter_severity_ne_nil (issues : List ValidationIssue) (s : String) :
    (issues.filter (fun i => i.severity == s) ≠ [])
      ↔ (issues.map (fun i => i.severity)).contains s = true := by
  rw [ne_eq, List.filter_eq_nil_iff, List.contains_iff_exists_mem_beq]
  push_neg
  constructor
  · rintro ⟨i, hi, hs⟩
    refine ⟨i.severity, List.mem_map.mpr ⟨i, hi, rfl⟩, ?_⟩
    rw [beq_iff_eq] at hs ⊢
    exact hs.symm
  · rintro ⟨v, hv, hs⟩
    obtain ⟨i, hi, rfl⟩ := List.mem_map.mp hv
    refine ⟨i, hi, ?_⟩
    rw [beq_iff_eq] at hs ⊢
    exact hs.symm

/-- C5: the status of a returned `ValidationResult` is the strict
precedence function of the severities occurring in its issue list:
`NEEDS_REVISION` if `"critical"` occurs, else `APPROVED_WITH_WARNINGS`
if `"high"` occurs, else `APPROVED`. -/
theorem status_from_severities (plan : TravelPlan) (req : List (String × ℚ))
    (r : ValidationResult) (h : validate_single_plan plan req = Except.ok r) :
    r.status = (if (r.issues.map (fun i => i.severity)).contains "critical" then
        "NEEDS_REVISION"
      else if (r.issues.map (fun i => i.severity)).contains "high" then
        "APPROVED_WITH_WARNINGS"
      else "APPROVED") := by
  obtain ⟨b, t, d, f, c, w, _, _, _, _, _, _, hr⟩ := validate_single_plan_spec plan req r h
  subst hr
  show statusOf _ = _
  unfold statusOf
  by_cases hc : ((b ++ t ++ d ++ f ++ c).map (fun i => i.severity)).contains "critical"
  · rw [if_pos ((filter_severity_ne_nil _ _).mpr hc), if_pos hc]
  · rw [if_neg (fun hne => hc ((filter_severity_ne_nil _ _).mp hne)), if_neg hc]
    by_cases hh : ((b ++ t ++ d ++ f ++ c).map (fun i => i.severity)).contains "high"
    · rw [if_pos ((filter_severity_ne_nil _ _).mpr hh), if_pos hh]
    · rw [if_neg (fun hne => hh ((filter_severity_ne_nil _ _).mp hne)), if_neg hh]

/-- C5 witness at a concrete plan. -/
theorem status_from_severities_witness :
    ∃ r, validate_single_plan overlapPlan req1000 = Except.ok r
      ∧ r.status = (if (r.issues.map (fun i => i.severity)).contains "critical" then
            "NEEDS_REVISION"
          else if (r.issues.map (fun i => i.severity)).contains "high" then
            "APPROVED_WITH_WARNINGS"
          else "APPROVED") :=
  ⟨_, rfl, status_from_severities overlapPlan req1000 _ rfl⟩

/-- C8: a successful `validate_single_plan` runs budget, timing, daily
balance, feasibility and cost distribution in that order, returns their
concatenated issue lists in exactly that order, and puts the separately
computed warnings in the warnings list only. -/
theorem checks_fixed_order (plan : TravelPlan) (req : List (String × ℚ))
    (r : ValidationResult) (h : validate_single_plan plan req = Except.ok r) :
    ∃ b t d f c, validate_budget plan req = Except.ok b ∧
      validate_timing plan = Except.ok t ∧
      validate_daily_balance plan = Except.ok d ∧
      validate_activity_feasibility plan = Except.ok f ∧
      validate_cost_distribution plan = Except.ok c ∧
      r.issues = b ++ t ++ d ++ f ++ c ∧
      check_warnings plan = Except.ok r.warnings := by
  obtain ⟨b, t, d, f, c, w, hb, ht, hd, hf, hc, hw, hr⟩ :=
    validate_single_plan_spec plan req r h
  subst hr
  exact ⟨b, t, d, f, c, hb, ht, hd, hf, hc, rfl, hw⟩

/-- C8 witness at a concrete plan. -/
theorem checks_fixed_order_witness :
    ∃ r, validate_single_plan overlapPlan req1000 = Except.ok r
      ∧ ∃ b t d f c, validate_budget overlapPlan req1000 = Except.ok b ∧
          validate_timing overlapPlan = Except.ok t ∧
          validate_daily_balance overlapPlan = Except.ok d ∧
          validate_activity_feasibility overlapPlan = Except.ok f ∧
          validate_cost_distribution overlapPlan = Except.ok c ∧
          r.issues = b ++ t ++ d ++ f ++ c ∧
          check_warnings overlapPlan = Except.ok r.warnings :=
  ⟨_, rfl, checks_fixed_order overlapPlan req1000 _ rfl⟩

/-- Bind on a successful `Except` is the continuation. -/
theorem exc_bind_ok {ε α β : Type} (a : α) (f : α → Except ε β) :
    (Except.ok a >>= f) = f a := rfl

/-- Bind on a failed `Except` keeps the failure. -/
theorem exc_bind_error {ε α β : Type} (e : ε) (f : α → Except ε β) :
    ((Except.error e : Except ε α) >>= f) = Except.error e := rfl

/-- Reading `daily_plans` of a plan that has the collection. -/
theorem getDailyPlans_some (plan : TravelPlan) (ds : List DayPlan)
    (h : plan.daily_plans = some ds) : getDailyPlans plan = Except.ok ds := by
  unfold getDailyPlans
  rw [h]

/-- C1: at the overlap example from the spec (activity 1 at `09:00` for
2 hours, activity 2 at `10:30`) the timing check emits one
`critical`/`timing` overlap issue for the pair AND, contrary to the
claimed precedence, also one `high`/`timing` buffer issue for the very
same pair: the source checks the two conditions independently. -/
theorem overlap_pair_raises_both_issues :
    (validate_timing overlapPlan).map (fun is =>
      ((is.filter (fun i => i.severity == "critical" && i.category == "timing")).map
         (fun i => i.affected_activities),
       (is.filter (fun i => i.severity == "high" && i.category == "timing")).map
         (fun i => i.affected_activities)))
    = Except.ok ([["Morning Tour", "Lunch"]], [["Morning Tour", "Lunch"]]) := by rfl

/-- C2 counterexample: a batch of three plans whose middle plan lacks
the `dailyPlans` collection does not return three results; the whole
`validate_plans` call aborts with the middle plan's error. -/
theorem batch_aborts_on_malformed_plan :
    validate_plans [goodPlan1, malformedPlan, goodPlan3] req1000
      = Except.error (PyError.attributeError "daily_plans") := by rfl

/-- C2 (amended): `validate_plans` is fail-fast — if every plan before
`p` validates successfully and validating `p` raises, the whole batch
call returns `p`'s error and produces no results at all. -/
theorem batch_fail_fast (front : List TravelPlan) (p : TravelPlan) (rest : List TravelPlan)
    (req : List (String × ℚ)) (e : PyError)
    (hfront : ∀ q ∈ front, ∃ r, validate_single_plan q req = Except.ok r)
    (hp : validate_single_plan p req = Except.error e) :
    validate_plans (front ++ p :: rest) req = Except.error e := by
  induction front with
  | nil =>
    show validate_plans (p :: rest) req = Except.error e
    unfold validate_plans
    simp only [List.mapM_cons]
    rw [hp, exc_bind_error]
  | cons q front ih =>
    obtain ⟨rq, hq⟩ := hfront q (by simp)
    have ih2 := ih (fun q2 hq2 => hfront q2 (by simp [hq2]))
    show validate_plans (q :: (front ++ p :: rest)) req = Except.error e
    unfold validate_plans
    simp only [List.mapM_cons]
    rw [hq, exc_bind_ok]
    unfold validate_plans at ih2
    rw [ih2, exc_bind_error]

/-- C2 witness: the fail-fast theorem applied to a concrete batch whose
second plan is malformed. -/
theorem batch_fail_fast_witness :
    validate_plans [goodPlan3, malformedPlan2, goodPlan1] req1000
      = Except.error (PyError.attributeError "daily_plans") :=
  batch_fail_fast [goodPlan3] malformedPlan2 [goodPlan1] req1000
    (PyError.attributeError "daily_plans")
    (fun q hq => by
      rw [List.mem_singleton] at hq
      subst hq
      exact ⟨_, rfl⟩)
    rfl

/-- C3 counterexample: a plan whose activity has the unparsable time
`"banana"` makes `validate_single_plan` raise the `ValueError` instead
of recording a `medium`/`timing` issue. -/
theorem unparsable_time_aborts_validation :
    validate_single_plan badTimePlan req1000
      = Except.error (PyError.valueError "banana") := by rfl

/-- C3 (amended): when an activity of an adjacent pair has an
unparsable `time`, the `strptime` error propagates out of
`validate_single_plan` (no `medium`/`timing` issue is recorded and no
result is returned), provided the budget check before it did not itself
raise. -/
theorem unparsable_time_error_propagates (plan : TravelPlan) (req : List (String × ℚ))
    (day : DayPlan) (a b : Activity)
    (hdays : plan.daily_plans = some [day])
    (hacts : day.activities = [a, b])
    (hparse : parseTimeHM a.time = none)
    (hbudget : ∃ issues, validate_budget plan req = Except.ok issues) :
    validate_single_plan plan req = Except.error (PyError.valueError a.time) := by
  obtain ⟨bis, hb⟩ := hbudget
  have hstrp : strptime a.time = Except.error (PyError.valueError a.time) := by
    unfold strptime
    rw [hparse]
  have hbuf : bufferHours a b = Except.error (PyError.valueError a.time) := by
    unfold bufferHours
    rw [hstrp, exc_bind_error]
  have hpair : pairIssues day.day_number a b = Except.error (PyError.valueError a.time) := by
    unfold pairIssues
    rw [hbuf, exc_bind_error]
  have hcons : consecutivePairIssues day.day_number [a, b]
      = Except.error (PyError.valueError a.time) := by
    unfold consecutivePairIssues
    rw [hpair, exc_bind_error]
  have htd : timingDay day = Except.error (PyError.valueError a.time) := by
    unfold timingDay
    rw [hacts, hcons, exc_bind_error]
  have ht : validate_timing plan = Except.error (PyError.valueError a.time) := by
    unfold validate_timing
    rw [getDailyPlans_some plan [day] hdays, exc_bind_ok]
    simp only [List.mapM_cons]
    rw [htd, exc_bind_error, exc_bind_error]
  unfold validate_single_plan
  rw [hb, exc_bind_ok, ht, exc_bind_error]

/-- C3 witness: the propagation theorem applied to a concrete plan with
the out-of-range time `"12:99"`. -/
theorem unparsable_time_error_propagates_witness :
    validate_single_plan badTimePlan2 req1000
      = Except.error (PyError.valueError "12:99") :=
  unparsable_time_error_propagates badTimePlan2 req1000 _ _ _ rfl rfl rfl ⟨_, rfl⟩

/-- C6: with a non-zero budget the budget check succeeds and emits the
`critical`/`budget` issue exactly when `totalCost > budget * 1.1`, the
`low`/`budget` issue exactly when `totalCost ≤ budget * 1.1` and
`totalCost < budget * 0.6`, and never more than one issue: the two
branches are mutually exclusive. -/
theorem budget_check_branches (plan : TravelPlan) (req : List (String × ℚ))
    (hb : getBudget req ≠ 0) :
    ∃ issues, validate_budget plan req = Except.ok issues ∧
      ((issues.filter (fun i => i.severity == "critical" && i.category == "budget")).length
        = if plan.total_cost > getBudget req * (1 + BUDGET_TOLERANCE) then 1 else 0) ∧
      ((issues.filter (fun i => i.severity == "low" && i.category == "budget")).length
        = if plan.total_cost ≤ getBudget req * (1 + BUDGET_TOLERANCE)
            ∧ plan.total_cost < getBudget req * (6/10) then 1 else 0) ∧
      issues.length ≤ 1 := by
  simp only [validate_budget]
  by_cases h1 : plan.total_cost > getBudget req * (1 + BUDGET_TOLERANCE)
  · rw [if_pos h1, if_neg hb]
    refine ⟨_, rfl, ?_, ?_, ?_⟩
    · rw [if_pos h1]
      simp [List.filter]
    · rw [if_neg]
      · simp [List.filter]
      · rintro ⟨hle, _⟩
        exact absurd h1 (not_lt.mpr hle)
    · simp
  · rw [if_neg h1]
    by_cases h2 : plan.total_cost < getBudget req * (6/10)
    · rw [if_pos h2, if_neg hb]
      refine ⟨_, rfl, ?_, ?_, ?_⟩
      · rw [if_neg h1]
        simp [List.filter]
      · rw [if_pos ⟨not_lt.mp h1, h2⟩]
        simp [List.filter]
      · simp
    · rw [if_neg h2]
      refine ⟨_, rfl, ?_, ?_, ?_⟩
      · rw [if_neg h1]
        simp
      · rw [if_neg]
        · simp
        · rintro ⟨_, hlt⟩
          exact h2 hlt
      · simp

/-- C6 witness: budget 1000 with total cost 1101 yields exactly one
`critical`/`budget` issue, and total cost 1099 yields none from that
branch (and none from the under-budget branch either). -/
theorem budget_check_branches_witness :
    (∃ issues, validate_budget plan1101 req1000 = Except.ok issues ∧
      (issues.filter (fun i => i.severity == "critical" && i.category == "budget")).length = 1 ∧
      (issues.filter (fun i => i.severity == "low" && i.category == "budget")).length = 0)
    ∧ (∃ issues, validate_budget plan1099 req1000 = Except.ok issues ∧
      (issues.filter (fun i => i.severity == "critical" && i.category == "budget")).length = 0 ∧
      (issues.filter (fun i => i.severity == "low" && i.category == "budget")).length = 0) := by
  constructor
  · obtain ⟨issues, hok, hcrit, hlow, _⟩ :=
      budget_check_branches plan1101 req1000 (by decide)
    rw [if_pos (by decide)] at hcrit
    rw [if_neg (by decide)] at hlow
    exact ⟨issues, hok, hcrit, hlow⟩
  · obtain ⟨issues, hok, hcrit, hlow, _⟩ :=
      budget_check_branches plan1099 req1000 (by decide)
    rw [if_neg (by decide)] at hcrit
    rw [if_neg (by decide)] at hlow
    exact ⟨issues, hok, hcrit, hlow⟩

/-- C7: per day, the count part of the timing check contributes exactly
one `high`/`timing` issue listing all of the day's activities when the
count exceeds `MAX_DAILY_ACTIVITIES` (8), exactly one `low`/`timing`
issue when the count is below `MIN_DAILY_ACTIVITIES` (3), and nothing
otherwise; the day's full timing output is these issues followed by the
pair and duration issues. -/
theorem daily_activity_count_rule (day : DayPlan) (pair_issues : List ValidationIssue)
    (hp : consecutivePairIssues day.day_number day.activities = Except.ok pair_issues) :
    timingDay day = Except.ok
        (dayCountIssues day ++ pair_issues ++ longActivityIssues day.day_number day.activities)
    ∧ (MAX_DAILY_ACTIVITIES < day.activities.length →
        ∃ i, dayCountIssues day = [i] ∧ i.severity = "high" ∧ i.category = "timing"
          ∧ i.affected_activities = day.activities.map (fun a => a.name))
    ∧ (day.activities.length < MIN_DAILY_ACTIVITIES →
        ∃ i, dayCountIssues day = [i] ∧ i.severity = "low" ∧ i.category = "timing"
          ∧ i.affected_activities = day.activities.map (fun a => a.name))
    ∧ (MIN_DAILY_ACTIVITIES ≤ day.activities.length →
        day.activities.length ≤ MAX_DAILY_ACTIVITIES → dayCountIssues day = []) := by
  refine ⟨?_, ?_, ?_, ?_⟩
  · unfold timingDay
    rw [hp, exc_bind_ok]
    rfl
  · intro h
    simp only [dayCountIssues]
    rw [if_pos h]
    exact ⟨_, rfl, rfl, rfl, rfl⟩
  · intro h
    have hnot : ¬(day.activities.length > MAX_DAILY_ACTIVITIES) := by
      unfold MIN_DAILY_ACTIVITIES at h
      unfold MAX_DAILY_ACTIVITIES
      omega
    simp only [dayCountIssues]
    rw [if_neg hnot, if_pos h]
    exact ⟨_, rfl, rfl, rfl, rfl⟩
  · intro h3 h8
    simp only [dayCountIssues]
    rw [if_neg (not_lt.mpr h8), if_neg (not_lt.mpr h3)]

/-- C7 witness: a day with 9 activities gets exactly one `high`/`timing`
count issue listing all nine, and a day with exactly 8 gets no
count-based issue. -/
theorem daily_activity_count_rule_witness :
    (MAX_DAILY_ACTIVITIES < day9.activities.length
      ∧ ∃ i, dayCountIssues day9 = [i] ∧ i.severity = "high" ∧ i.category = "timing"
          ∧ i.affected_activities = day9.activities.map (fun a => a.name))
    ∧ (day8.activities.length = 8 ∧ dayCountIssues day8 = []) :=
  ⟨⟨by decide, (daily_activity_count_rule day9 _ rfl).2.1 (by decide)⟩,
   ⟨rfl, (daily_activity_count_rule day8 _ rfl).2.2.2 (by decide) (by decide)⟩⟩

/-- C10: a requirements dict without a positive `budget` entry defaults
the budget to 0, and validating any plan with positive total cost then
hits the division by zero in the over-budget branch: `validate_single_plan`
raises `ZeroDivisionError` instead of returning a result. -/
theorem zero_budget_division_error (plan : TravelPlan) (req : List (String × ℚ))
    (hkey : req.lookup "budget" = none ∨ req.lookup "budget" = some 0)
    (hc : 0 < plan.total_cost) :
    getBudget req = 0
      ∧ validate_single_plan plan req = Except.error PyError.zeroDivisionError := by
  have h0 : getBudget req = 0 := by
    rcases hkey with h | h <;> simp [getBudget, h]
  have hover : plan.total_cost > getBudget req * (1 + BUDGET_TOLERANCE) := by
    rw [h0]
    simpa using hc
  have hbud : validate_budget plan req = Except.error PyError.zeroDivisionError := by
    simp only [validate_budget]
    rw [if_pos hover, if_pos h0]
  refine ⟨h0, ?_⟩
  unfold validate_single_plan
  rw [hbud, exc_bind_error]

/-- C10 witness: requirements with no `budget` key and a plan of total
cost 100. -/
theorem zero_budget_division_error_witness :
    getBudget [] = 0
      ∧ validate_single_plan costPlan100 [] = Except.error PyError.zeroDivisionError :=
  zero_budget_division_error costPlan100 [] (Or.inl rfl) (by decide)

/-! ### C9: the five scoring checks only read the erased plan -/

theorem eraseDay_day_number (d : DayPlan) : (eraseDay d).day_number = d.day_number := rfl

theorem eraseDay_total_cost (d : DayPlan) : (eraseDay d).total_cost = d.total_cost := rfl

theorem eraseDay_activities (d : DayPlan) :
    (eraseDay d).activities = d.activities.map eraseActivity := rfl

theorem erasePlan_daily (p : TravelPlan) :
    (erasePlanWarningFields p).daily_plans
      = p.daily_plans.map (fun ds => ds.map eraseDay) := rfl

theorem validate_budget_erase (p : TravelPlan) (req : List (String × ℚ)) :
    validate_budget (erasePlanWarningFields p) req = validate_budget p req := rfl

theorem pairIssues_erase (dn : Int) (a b : Activity) :
    pairIssues dn (eraseActivity a) (eraseActivity b) = pairIssues dn a b := rfl

theorem consecutive_erase (dn : Int) (l : List Activity) :
    consecutivePairIssues dn (l.map eraseActivity) = consecutivePairIssues dn l := by
  induction l with
  | nil => rfl
  | cons a tail ih =>
    cases tail with
    | nil => rfl
    | cons b rest =>
      have lhs_eq : consecutivePairIssues dn ((a :: b :: rest).map eraseActivity)
          = (do
              let here ← pairIssues dn (eraseActivity a) (eraseActivity b)
              let later ← consecutivePairIssues dn ((b :: rest).map eraseActivity)
              pure (here ++ later)) := rfl
      have rhs_eq : consecutivePairIssues dn (a :: b :: rest)
          = (do
              let here ← pairIssues dn a b
              let later ← consecutivePairIssues dn (b :: rest)
              pure (here ++ later)) := rfl
      rw [lhs_eq, rhs_eq, pairIssues_erase, ih]

theorem dayCountIssues_erase (d : DayPlan) :
    dayCountIssues (eraseDay d) = dayCountIssues d := by
  simp only [dayCountIssues, eraseDay_activities, eraseDay_day_number,
    List.length_map, List.map_map]
  rfl

theorem longActivityIssues_erase (dn : Int) (l : List Activity) :
    longActivityIssues dn (l.map eraseActivity) = longActivityIssues dn l := by
  unfold longActivityIssues
  rw [List.filterMap_map]
  rfl

theorem timingDay_erase (d : DayPlan) : timingDay (eraseDay d) = timingDay d := by
  unfold timingDay
  simp only [eraseDay_activities, eraseDay_day_number, consecutive_erase,
    dayCountIssues_erase, longActivityIssues_erase]

theorem mapM_timingDay_erase (ds : List DayPlan) :
    (ds.map eraseDay).mapM timingDay = ds.mapM timingDay := by
  induction ds with
  | nil => rfl
  | cons d tail ih => simp only [List.map_cons, List.mapM_cons, timingDay_erase, ih]

theorem getDailyPlans_erase (p : TravelPlan) :
    getDailyPlans (erasePlanWarningFields p)
      = Except.map (fun ds => ds.map eraseDay) (getDailyPlans p) := by
  unfold getDailyPlans
  rw [erasePlan_daily]
  cases p.daily_plans <;> rfl

theorem validate_timing_erase (p : TravelPlan) :
    validate_timing (erasePlanWarningFields p) = validate_timing p := by
  unfold validate_timing
  rw [getDailyPlans_erase]
  cases getDailyPlans p with
  | error e => rfl
  | ok ds =>
    rw [show Except.map (fun ds => ds.map eraseDay) (Except.ok ds)
          = (Except.ok (ds.map eraseDay) : Except PyError (List DayPlan)) from rfl,
      exc_bind_ok, exc_bind_ok, mapM_timingDay_erase]

theorem balanceDay_erase (d : DayPlan) : balanceDay (eraseDay d) = balanceDay d := by
  simp only [balanceDay, totalHours, eraseDay_activities, eraseDay_day_number,
    List.filter_map, List.map_map, List.length_map]
  rfl

theorem validate_daily_balance_erase (p : TravelPlan) :
    validate_daily_balance (erasePlanWarningFields p) = validate_daily_balance p := by
  unfold validate_daily_balance
  rw [getDailyPlans_erase]
  cases getDailyPlans p with
  | error e => rfl
  | ok ds =>
    rw [show Except.map (fun ds => ds.map eraseDay) (Except.ok ds)
          = (Except.ok (ds.map eraseDay) : Except PyError (List DayPlan)) from rfl,
      exc_bind_ok, exc_bind_ok]
    simp only [List.map_map, Function.comp_def, balanceDay_erase]

theorem activityFeasibilityIssues_erase (dn : Int) (a : Activity) :
    activityFeasibilityIssues dn (eraseActivity a) = activityFeasibilityIssues dn a := rfl

theorem validate_activity_feasibility_erase (p : TravelPlan) :
    validate_activity_feasibility (erasePlanWarningFields p)
      = validate_activity_feasibility p := by
  unfold validate_activity_feasibility
  rw [getDailyPlans_erase]
  cases getDailyPlans p with
  | error e => rfl
  | ok ds =>
    rw [show Except.map (fun ds => ds.map eraseDay) (Except.ok ds)
          = (Except.ok (ds.map eraseDay) : Except PyError (List DayPlan)) from rfl,
      exc_bind_ok, exc_bind_ok]
    simp only [List.map_map, Function.comp_def, eraseDay_activities, eraseDay_day_number,
      activityFeasibilityIssues_erase]

theorem validate_cost_distribution_erase (p : TravelPlan) :
    validate_cost_distribution (erasePlanWarningFields p)
      = validate_cost_distribution p := by
  unfold validate_cost_distribution
  rw [getDailyPlans_erase]
  cases getDailyPlans p with
  | error e => rfl
  | ok ds =>
    rw [show Except.map (fun ds => ds.map eraseDay) (Except.ok ds)
          = (Except.ok (ds.map eraseDay) : Except PyError (List DayPlan)) from rfl,
      exc_bind_ok, exc_bind_ok]
    by_cases hds : ds = []
    · subst hds
      rfl
    · rw [if_neg (by simpa using hds), if_neg hds]
      simp only [List.map_map, Function.comp_def, eraseDay_total_cost, List.length_map,
        List.filterMap_map, eraseDay_day_number]

/-- C9: warnings never influence score or status — validating two plans
that agree after erasing the warnings-only data (accommodation,
transportation, activity `source` attributions) with the same
requirements yields the same score and the same status. -/
theorem warnings_do_not_affect_score_status (p1 p2 : TravelPlan) (req : List (String × ℚ))
    (h : erasePlanWarningFields p1 = erasePlanWarningFields p2)
    (r1 r2 : ValidationResult)
    (h1 : validate_single_plan p1 req = Except.ok r1)
    (h2 : validate_single_plan p2 req = Except.ok r2) :
    r1.score = r2.score ∧ r1.status = r2.status := by
  have hb : validate_budget p1 req = validate_budget p2 req := by
    rw [← validate_budget_erase p1 req, ← validate_budget_erase p2 req, h]
  have ht : validate_timing p1 = validate_timing p2 := by
    rw [← validate_timing_erase p1, ← validate_timing_erase p2, h]
  have hd : validate_daily_balance p1 = validate_daily_balance p2 := by
    rw [← validate_daily_balance_erase p1, ← validate_daily_balance_erase p2, h]
  have hf : validate_activity_feasibility p1 = validate_activity_feasibility p2 := by
    rw [← validate_activity_feasibility_erase p1, ← validate_activity_feasibility_erase p2, h]
  have hc : validate_cost_distribution p1 = validate_cost_distribution p2 := by
    rw [← validate_cost_distribution_erase p1, ← validate_cost_distribution_erase p2, h]
  obtain ⟨b1, t1, d1, f1, c1, w1, hb1, ht1, hd1, hf1, hc1, hw1, hr1⟩ :=
    validate_single_plan_spec p1 req r1 h1
  obtain ⟨b2, t2, d2, f2, c2, w2, hb2, ht2, hd2, hf2, hc2, hw2, hr2⟩ :=
    validate_single_plan_spec p2 req r2 h2
  have eb : b1 = b2 := Except.ok.inj (hb1.symm.trans (hb.trans hb2))
  have et : t1 = t2 := Except.ok.inj (ht1.symm.trans (ht.trans ht2))
  have ed : d1 = d2 := Except.ok.inj (hd1.symm.trans (hd.trans hd2))
  have ef : f1 = f2 := Except.ok.inj (hf1.symm.trans (hf.trans hf2))
  have ec : c1 = c2 := Except.ok.inj (hc1.symm.trans (hc.trans hc2))
  subst hr1 hr2 eb et ed ef ec
  exact ⟨rfl, rfl⟩

/-- C9 witness: two concrete plans differing only in accommodation,
transportation detail and source attribution get the same score and
status, while their warnings do differ. -/
theorem warnings_do_not_affect_score_status_witness :
    ∃ r1 r2, validate_single_plan warnPlanA req1000 = Except.ok r1
      ∧ validate_single_plan warnPlanB req1000 = Except.ok r2
      ∧ (r1.score = r2.score ∧ r1.status = r2.status)
      ∧ r1.warnings ≠ r2.warnings :=
  ⟨_, _, rfl, rfl,
   warnings_do_not_affect_score_status warnPlanA warnPlanB req1000 (by decide) _ _ rfl rfl,
   by decide⟩

end Theorems

end TravelAgent
